import Mathlib

/-!
Verification of the orbital-visualization render loop (`src/script.js`).

The render loop `tick` is embedded as a pure state-transition function over a
`World` record holding the module-level mutable state of the script.  JavaScript
numbers are modeled as exact rationals (`ℚ`).  The external collaborators — the
black-box physics stepper `simulation.step`, its timestep `simulation.dt`, and
the engine's `Vector2D.magnitude` — are passed in as an `Ext` record.  DOM
text-output targets keep the numeric value they would display (string
formatting such as `toFixed` is abstracted away); `renderer.render` and the
stepper invocations are observed through ghost counters.
-/

namespace Orbits

/-- Two-dimensional vector of the external physics engine (`Vector2D`). -/
structure Vec2 where
  x : ℚ
  y : ℚ
deriving DecidableEq

/-- Componentwise sum of 2D vectors. -/
def Vec2.add (a b : Vec2) : Vec2 := ⟨a.x + b.x, a.y + b.y⟩

/-- Scalar multiple of a 2D vector. -/
def Vec2.smul (k : ℚ) (a : Vec2) : Vec2 := ⟨k * a.x, k * a.y⟩

/-- Three-dimensional scene-space position. -/
structure Vec3 where
  x : ℚ
  y : ℚ
  z : ℚ
deriving DecidableEq

/-- A physics body as read by the render loop: its position and velocity. -/
structure Body where
  position : Vec2
  velocity : Vec2
deriving DecidableEq

/-- The three bodies of the simulation, owned by the external stepper. -/
structure Bodies where
  sun : Body
  earth : Body
  mars : Body
deriving DecidableEq

/-- External collaborators: the black-box stepper `simulation.step` (mutates
all bodies in place, modeled functionally), its fixed timestep `simulation.dt`
(set to `86400 * 10` at script.js line 85), and `Vector2D.magnitude`. -/
structure Ext where
  step : Bodies → Bodies
  dt : ℚ
  magnitude : Vec2 → ℚ

/-- Constant from script.js line 88: `const SCALE_FACTOR = 1 / 1e11`. -/
def SCALE_FACTOR : ℚ := 1 / 1e11

/-- Constant from script.js line 95: `const MAX_TRAIL_POINTS = 200`. -/
def MAX_TRAIL_POINTS : ℕ := 200

/-- Physics-to-scene unit conversion: multiply each component by
`SCALE_FACTOR`, exactly as script.js lines 227-234 compute
`position.x * SCALE_FACTOR` and `position.y * SCALE_FACTOR`. -/
def toScene (p : Vec2) : Vec2 := ⟨p.x * SCALE_FACTOR, p.y * SCALE_FACTOR⟩

/-- A DOM text-output target; only the numeric value written to its
`textContent` is modeled. -/
structure TextElement where
  textContent : ℚ
deriving DecidableEq

/-- A scene node: the position and y-rotation fields that `tick` touches. -/
structure Mesh where
  position : Vec3
  rotationY : ℚ
deriving DecidableEq

/-- Initial trail storage: `n` points `(0, 0, 0)` pushed flat
(script.js lines 103-106, with `n = MAX_TRAIL_POINTS`). -/
def initTrailPositions (n : ℕ) : List ℚ := List.replicate (3 * n) 0

/-- One trail write, transcribing script.js lines 241-244 (and 249-252):
store `x`, `y`, `0` at flat offsets `index*3`, `index*3+1`, `index*3+2`,
then advance the cursor to `(index + 1) % n`. -/
def recordTrail (n : ℕ) (positions : List ℚ) (index : ℕ) (x y : ℚ) :
    List ℚ × ℕ :=
  (((positions.set (index * 3) x).set (index * 3 + 1) y).set (index * 3 + 2) 0,
   (index + 1) % n)

/-- Fold `recordTrail` over a list of sampled `(x, y)` points. -/
def recordAll (n : ℕ) (s : List ℚ × ℕ) (ps : List (ℚ × ℚ)) : List ℚ × ℕ :=
  ps.foldl (fun s p => recordTrail n s.1 s.2 p.1 p.2) s

/-- The flat `(x, y, 0)` vertex triples of a list of sampled points. -/
def flat3 : List (ℚ × ℚ) → List ℚ
  | [] => []
  | p :: ps => p.1 :: p.2 :: 0 :: flat3 ps

/-- The module-level mutable state of script.js read and written by `tick`,
together with ghost counters (`stepCount`, `trailSampleCount`, `renderCount`)
observing how often the stepper, the trail sampler and the renderer run. -/
structure World where
  bodies : Bodies
  simulationTime : ℚ
  lastPhysicsUpdate : ℚ
  lastTime : ℚ
  sunMesh : Mesh
  earthMesh : Mesh
  marsMesh : Mesh
  marsTrailPositions : List ℚ
  marsTrailIndex : ℕ
  earthTrailPositions : List ℚ
  earthTrailIndex : ℕ
  trailUpdateCount : ℕ
  marsTrailNeedsUpdate : Bool
  earthTrailNeedsUpdate : Bool
  sunLightPos : Vec3
  distanceElement : Option TextElement
  velocityElement : Option TextElement
  simTimeElement : Option TextElement
  stepCount : ℕ
  trailSampleCount : ℕ
  renderCount : ℕ

/-- One frame of the render loop (`tick`, script.js lines 191-272),
parameterized by the external collaborators `ext` and the clock reading
`currentTime`.  The guarded DOM writes `if (element) element.textContent = v`
become `Option.map`; `renderer.render` is observed by `renderCount`. -/
def tick (ext : Ext) (w : World) (currentTime : ℚ) : World :=
  let deltaTime := currentTime - w.lastTime
  -- lines 197-216: throttled physics step and info-panel update
  let w1 :=
    if currentTime - w.lastPhysicsUpdate ≥ 0.5 then
      let bodies := ext.step w.bodies
      let simulationTime := w.simulationTime + ext.dt
      let distance := ext.magnitude bodies.mars.position / 1.496e11
      let velocity := ext.magnitude bodies.mars.velocity / 1000
      let days := simulationTime / 86400
      { w with
        bodies := bodies
        simulationTime := simulationTime
        lastPhysicsUpdate := currentTime
        stepCount := w.stepCount + 1
        distanceElement := w.distanceElement.map fun _ => ⟨distance⟩
        velocityElement := w.velocityElement.map fun _ => ⟨velocity⟩
        simTimeElement := w.simTimeElement.map fun _ => ⟨(⌊days⌋ : ℚ)⟩ }
    else w
  -- lines 218-234: push physics positions into the scene nodes
  let sunPos : Vec3 :=
    ⟨w1.bodies.sun.position.x * SCALE_FACTOR,
     w1.bodies.sun.position.y * SCALE_FACTOR, 0⟩
  let earthX := w1.bodies.earth.position.x * SCALE_FACTOR
  let earthY := w1.bodies.earth.position.y * SCALE_FACTOR
  let marsX := w1.bodies.mars.position.x * SCALE_FACTOR
  let marsY := w1.bodies.mars.position.y * SCALE_FACTOR
  -- lines 236-254: trail sampling every fifth frame
  let count := w1.trailUpdateCount + 1
  let marsTrail :=
    if count % 5 = 0 then
      recordTrail MAX_TRAIL_POINTS w1.marsTrailPositions w1.marsTrailIndex marsX marsY
    else (w1.marsTrailPositions, w1.marsTrailIndex)
  let earthTrail :=
    if count % 5 = 0 then
      recordTrail MAX_TRAIL_POINTS w1.earthTrailPositions w1.earthTrailIndex earthX earthY
    else (w1.earthTrailPositions, w1.earthTrailIndex)
  -- lines 256-268: sun light, cosmetic rotation, render
  { w1 with
    sunMesh := ⟨sunPos, w1.sunMesh.rotationY + deltaTime * 0.5⟩
    earthMesh := ⟨⟨earthX, earthY, 0⟩, w1.earthMesh.rotationY + deltaTime * 1.5⟩
    marsMesh := ⟨⟨marsX, marsY, 0⟩, w1.marsMesh.rotationY + deltaTime * 2.0⟩
    marsTrailPositions := marsTrail.1
    marsTrailIndex := marsTrail.2
    earthTrailPositions := earthTrail.1
    earthTrailIndex := earthTrail.2
    marsTrailNeedsUpdate := if count % 5 = 0 then true else w1.marsTrailNeedsUpdate
    earthTrailNeedsUpdate := if count % 5 = 0 then true else w1.earthTrailNeedsUpdate
    trailUpdateCount := count
    trailSampleCount := w1.trailSampleCount + if count % 5 = 0 then 1 else 0
    sunLightPos := sunPos
    lastTime := currentTime
    renderCount := w1.renderCount + 1 }

/-- Iterate `tick` over a list of frame times (the repeated animation
callback). -/
def runTicks (ext : Ext) (w : World) (ts : List ℚ) : World :=
  ts.foldl (tick ext) w

/-- A body at rest at the origin (test fixture). -/
def zeroBody : Body := ⟨⟨0, 0⟩, ⟨0, 0⟩⟩

/-- Mars initial state from script.js lines 77-78: position `(2.28e11, 0)`,
velocity `(0, 24100)`. -/
def marsBody : Body := ⟨⟨2.28e11, 0⟩, ⟨0, 24100⟩⟩

/-- Concrete external collaborators used to instantiate theorems: identity
stepper, the source's `dt = 86400 * 10`, zero magnitude. -/
def sampleExt : Ext := ⟨id, 86400 * 10, fun _ => 0⟩

/-- Concrete initial world used to instantiate theorems. -/
def sampleWorld : World where
  bodies := ⟨zeroBody, zeroBody, marsBody⟩
  simulationTime := 0
  lastPhysicsUpdate := 0
  lastTime := 0
  sunMesh := ⟨⟨0, 0, 0⟩, 0⟩
  earthMesh := ⟨⟨0, 0, 0⟩, 0⟩
  marsMesh := ⟨⟨0, 0, 0⟩, 0⟩
  marsTrailPositions := initTrailPositions MAX_TRAIL_POINTS
  marsTrailIndex := 0
  earthTrailPositions := initTrailPositions MAX_TRAIL_POINTS
  earthTrailIndex := 0
  trailUpdateCount := 0
  marsTrailNeedsUpdate := false
  earthTrailNeedsUpdate := false
  sunLightPos := ⟨0, 0, 0⟩
  distanceElement := none
  velocityElement := none
  simTimeElement := none
  stepCount := 0
  trailSampleCount := 0
  renderCount := 0

/-- The sample world with all three optional text targets absent. -/
def sampleWorldAbsent : World :=
  { sampleWorld with
    distanceElement := none
    velocityElement := none
    simTimeElement := none }

/-- Number of trail-sampling frames among the next `m` frames when the frame
counter currently reads `c`: a frame fires when the incremented counter is
divisible by 5. -/
def countFires (c : ℕ) : ℕ → ℕ
  | 0 => 0
  | m + 1 => (if (c + 1) % 5 = 0 then 1 else 0) + countFires (c + 1) m

/-! Projection lemmas describing how single fields of the world evolve over
one frame; shared by the cadence proofs below. -/

theorem tick_stepCount (ext : Ext) (w : World) (t : ℚ) :
    (tick ext w t).stepCount =
      if t - w.lastPhysicsUpdate ≥ 0.5 then w.stepCount + 1 else w.stepCount := by
  by_cases h : t - w.lastPhysicsUpdate ≥ 0.5 <;> simp [tick, h]

theorem tick_lastPhysicsUpdate (ext : Ext) (w : World) (t : ℚ) :
    (tick ext w t).lastPhysicsUpdate =
      if t - w.lastPhysicsUpdate ≥ 0.5 then t else w.lastPhysicsUpdate := by
  by_cases h : t - w.lastPhysicsUpdate ≥ 0.5 <;> simp [tick, h]

theorem tick_trailUpdateCount (ext : Ext) (w : World) (t : ℚ) :
    (tick ext w t).trailUpdateCount = w.trailUpdateCount + 1 := by
  by_cases h : t - w.lastPhysicsUpdate ≥ 0.5 <;> simp [tick, h]

theorem tick_trailSampleCount (ext : Ext) (w : World) (t : ℚ) :
    (tick ext w t).trailSampleCount =
      w.trailSampleCount +
        if (w.trailUpdateCount + 1) % 5 = 0 then 1 else 0 := by
  by_cases h : t - w.lastPhysicsUpdate ≥ 0.5 <;> simp [tick, h]

theorem tick_renderCount (ext : Ext) (w : World) (t : ℚ) :
    (tick ext w t).renderCount = w.renderCount + 1 := by
  by_cases h : t - w.lastPhysicsUpdate ≥ 0.5 <;> simp [tick, h]

theorem flat3_length (ps : List (ℚ × ℚ)) : (flat3 ps).length = 3 * ps.length := by
  induction ps with
  | nil => simp [flat3]
  | cons p ps ih => simp [flat3, ih]; ring

/-- Recording a run of points that fits before the wrap point: the written
region replaces the slots from the cursor on, everything else is untouched,
and the cursor advances modulo the capacity. -/
theorem recordAll_split (n : ℕ) (ps : List (ℚ × ℚ)) :
    ∀ (P R : List ℚ) (i : ℕ), P.length = i * 3 → R.length = (n - i) * 3 →
      i < n → i + ps.length ≤ n →
      recordAll n (P ++ R, i) ps =
        (P ++ flat3 ps ++ R.drop (ps.length * 3), (i + ps.length) % n) := by
  induction ps with
  | nil =>
    intro P R i hP hR hi hle
    simp [recordAll, flat3, Nat.mod_eq_of_lt hi]
  | cons p ps ih =>
    intro P R i hP hR hi hle
    rcases R with _ | ⟨r0, _ | ⟨r1, _ | ⟨r2, R'⟩⟩⟩
    · exfalso; simp at hR; omega
    · exfalso; simp at hR; omega
    · exfalso; simp at hR; omega
    have hstep : recordAll n (P ++ r0 :: r1 :: r2 :: R', i) (p :: ps) =
        recordAll n
          (recordTrail n (P ++ r0 :: r1 :: r2 :: R') i p.1 p.2) ps := rfl
    have hw0 : (P ++ r0 :: r1 :: r2 :: R').set (i * 3) p.1 =
        P ++ p.1 :: r1 :: r2 :: R' := by
      simp [hP]
    have hw1 : (P ++ p.1 :: r1 :: r2 :: R').set (i * 3 + 1) p.2 =
        P ++ p.1 :: p.2 :: r2 :: R' := by
      simp [hP, List.set]
    have hw2 : (P ++ p.1 :: p.2 :: r2 :: R').set (i * 3 + 2) 0 =
        P ++ p.1 :: p.2 :: 0 :: R' := by
      simp [hP, List.set]
    have hbuf : recordTrail n (P ++ r0 :: r1 :: r2 :: R') i p.1 p.2 =
        (P ++ p.1 :: p.2 :: 0 :: R', (i + 1) % n) := by
      rw [recordTrail, hw0, hw1, hw2]
    rw [hstep, hbuf]
    rcases Nat.lt_or_ge (i + 1) n with hlt | hge
    · have himod : (i + 1) % n = i + 1 := Nat.mod_eq_of_lt hlt
      rw [himod]
      have hsplit : P ++ p.1 :: p.2 :: 0 :: R' = (P ++ [p.1, p.2, 0]) ++ R' := by
        simp
      rw [hsplit]
      have hP' : (P ++ [p.1, p.2, 0]).length = (i + 1) * 3 := by
        simp [hP]; ring
      have hR'' : R'.length = (n - (i + 1)) * 3 := by
        simp at hR; omega
      have hle' : i + 1 + ps.length ≤ n := by
        simp at hle; omega
      rw [ih (P ++ [p.1, p.2, 0]) R' (i + 1) hP' hR'' hlt hle']
      have h3 : (p :: ps).length * 3 = ps.length * 3 + 3 := by simp; ring
      have hdrop : List.drop ((p :: ps).length * 3) (r0 :: r1 :: r2 :: R') =
          List.drop (ps.length * 3) R' := by
        rw [h3]; rfl
      have hidx : i + 1 + ps.length = i + (p :: ps).length := by simp; omega
      rw [hdrop, ← hidx]
      simp [flat3]
    · have hn1 : i + 1 = n := by omega
      have hps : ps = [] := by
        have := hle
        simp at this
        have : ps.length = 0 := by omega
        exact List.eq_nil_of_length_eq_zero this
      subst hps
      simp [recordAll, flat3]

/-- C1: starting from cursor 0, after recording exactly `n` points (here
`n ≥ 2`, matching the code's capacity 200) the vertex array is exactly the
recorded sequence in write order and the cursor is back at 0; after one more
point, slot 0 holds that `(n+1)`-th point and slot 1 still holds the 2nd. -/
theorem ring_overwrite (n : ℕ) (p1 p2 : ℚ × ℚ) (rest : List (ℚ × ℚ))
    (q : ℚ × ℚ) (hn : (p1 :: p2 :: rest).length = n) :
    recordAll n (initTrailPositions n, 0) (p1 :: p2 :: rest) =
      (flat3 (p1 :: p2 :: rest), 0) ∧
    (recordAll n (initTrailPositions n, 0)
        ((p1 :: p2 :: rest) ++ [q])).1.take 3 = [q.1, q.2, 0] ∧
    ((recordAll n (initTrailPositions n, 0)
        ((p1 :: p2 :: rest) ++ [q])).1.drop 3).take 3 = [p2.1, p2.2, 0] := by
  have hn' : rest.length + 2 = n := by simpa using hn
  have hpos : 0 < n := by omega
  have hfull : recordAll n (initTrailPositions n, 0) (p1 :: p2 :: rest) =
      (flat3 (p1 :: p2 :: rest), 0) := by
    have h := recordAll_split n (p1 :: p2 :: rest) []
      (initTrailPositions n) 0 (by simp)
      (by simp [initTrailPositions]; omega) hpos (by omega)
    simp only [List.nil_append, hn, Nat.mod_self] at h
    rw [h]
    have hdrop : (initTrailPositions n).drop (n * 3) = [] := by
      apply List.drop_eq_nil_of_le
      simp [initTrailPositions]; omega
    simp [hdrop]
  refine ⟨hfull, ?_, ?_⟩ <;>
  · have hsplitq : recordAll n (initTrailPositions n, 0)
        ((p1 :: p2 :: rest) ++ [q]) = recordAll n (flat3 (p1 :: p2 :: rest), 0) [q] := by
      rw [recordAll, List.foldl_append, ← recordAll, ← recordAll, hfull]
    have hq := recordAll_split n [q] [] (flat3 (p1 :: p2 :: rest)) 0
      (by simp) (by simp [flat3_length]; omega) hpos (by simpa using hpos)
    simp only [List.nil_append] at hq
    rw [hsplitq, hq]
    simp [flat3]

/-- Witness for C1 at capacity 2 with points (1,2), (3,4) and overwrite
point (5,6). -/
theorem ring_overwrite_witness :
    recordAll 2 (initTrailPositions 2, 0) [(1, 2), (3, 4)] =
      (flat3 [(1, 2), (3, 4)], 0) ∧
    (recordAll 2 (initTrailPositions 2, 0)
        ([((1 : ℚ), (2 : ℚ)), (3, 4)] ++ [(5, 6)])).1.take 3 = [5, 6, 0] ∧
    ((recordAll 2 (initTrailPositions 2, 0)
        ([((1 : ℚ), (2 : ℚ)), (3, 4)] ++ [(5, 6)])).1.drop 3).take 3 = [3, 4, 0] :=
  ring_overwrite 2 (1, 2) (3, 4) [] (5, 6) rfl

/-- C6: from any in-range state, any sequence of `record` operations keeps
the backing storage at exactly `3 * n` floats and the cursor strictly below
the capacity `n`. -/
theorem trail_invariant (n : ℕ) (hn : 0 < n) (ps : List (ℚ × ℚ)) :
    ∀ (B : List ℚ) (i : ℕ), B.length = 3 * n → i < n →
      (recordAll n (B, i) ps).1.length = 3 * n ∧
      (recordAll n (B, i) ps).2 < n := by
  induction ps with
  | nil =>
    intro B i hB hi
    exact ⟨by simpa [recordAll], by simpa [recordAll]⟩
  | cons p ps ih =>
    intro B i hB hi
    have h1 : recordAll n (B, i) (p :: ps) =
        recordAll n (recordTrail n B i p.1 p.2) ps := rfl
    rw [h1]
    exact ih _ _ (by simp [recordTrail, hB]) (Nat.mod_lt _ hn)

/-- Witness for C6 at capacity 2 over three recorded points. -/
theorem trail_invariant_witness :
    (recordAll 2 (initTrailPositions 2, 0) [(1, 2), (3, 4), (5, 6)]).1.length =
      3 * 2 ∧
    (recordAll 2 (initTrailPositions 2, 0) [(1, 2), (3, 4), (5, 6)]).2 < 2 :=
  trail_invariant 2 (by decide) [(1, 2), (3, 4), (5, 6)]
    (initTrailPositions 2) 0 (by decide) (by decide)

/-- Reading back the slot just written by one `record`: it holds exactly
`(x, y, 0)`. -/
theorem recordTrail_read (n : ℕ) (B : List ℚ) (i : ℕ) (x y : ℚ)
    (hi : i < n) (hB : B.length = 3 * n) :
    (recordTrail n B i x y).1[i * 3]? = some x ∧
    (recordTrail n B i x y).1[i * 3 + 1]? = some y ∧
    (recordTrail n B i x y).1[i * 3 + 2]? = some 0 := by
  have h0 : i * 3 + 2 < B.length := by omega
  refine ⟨?_, ?_, ?_⟩
  · rw [recordTrail]
    rw [List.getElem?_set_ne (by omega), List.getElem?_set_ne (by omega),
        List.getElem?_set_eq_of_lt _ (by omega)]
  · rw [recordTrail]
    rw [List.getElem?_set_ne (by omega),
        List.getElem?_set_eq_of_lt _ (by simp [List.length_set]; omega)]
  · rw [recordTrail]
    rw [List.getElem?_set_eq_of_lt _ (by simp [List.length_set]; omega)]

theorem runTicks_trailSampleCount (ext : Ext) (ts : List ℚ) :
    ∀ w : World, (runTicks ext w ts).trailSampleCount =
      w.trailSampleCount + countFires w.trailUpdateCount ts.length := by
  induction ts with
  | nil => intro w; simp [runTicks, countFires]
  | cons t ts ih =>
    intro w
    have h1 : runTicks ext w (t :: ts) = runTicks ext (tick ext w t) ts := rfl
    rw [h1, ih, tick_trailSampleCount, tick_trailUpdateCount]
    simp only [List.length_cons, countFires]
    split <;> omega

/-- C2: with physics interval 0.5 s and `lastPhysicsUpdate = 0`, feeding the
frame times `[0, 0.3, 0.6, 0.9, 1.2]` invokes the stepper exactly twice,
namely on the frames at 0.6 and 1.2 (the step count is 0 after the first two
frames, becomes 1 at 0.6, stays 1 at 0.9, and becomes 2 at 1.2). -/
theorem physics_cadence (ext : Ext) (w : World)
    (h0 : w.lastPhysicsUpdate = 0) (hs : w.stepCount = 0) :
    (runTicks ext w [0, 0.3]).stepCount = 0 ∧
    (runTicks ext w [0, 0.3, 0.6]).stepCount = 1 ∧
    (runTicks ext w [0, 0.3, 0.6, 0.9]).stepCount = 1 ∧
    (runTicks ext w [0, 0.3, 0.6, 0.9, 1.2]).stepCount = 2 := by
  norm_num [runTicks, tick_stepCount, tick_lastPhysicsUpdate, h0, hs]

/-- Witness for C2 on the concrete sample world. -/
theorem physics_cadence_witness :
    (runTicks sampleExt sampleWorld [0, 0.3]).stepCount = 0 ∧
    (runTicks sampleExt sampleWorld [0, 0.3, 0.6]).stepCount = 1 ∧
    (runTicks sampleExt sampleWorld [0, 0.3, 0.6, 0.9]).stepCount = 1 ∧
    (runTicks sampleExt sampleWorld [0, 0.3, 0.6, 0.9, 1.2]).stepCount = 2 :=
  physics_cadence sampleExt sampleWorld rfl rfl

/-- C3: the stepper runs at most once per frame; in particular a stall of
`k` physics intervals (`k ≥ 1`) still produces exactly one step on the next
frame, never `k` steps. -/
theorem no_backfill (ext : Ext) (w : World) (t : ℚ) (k : ℕ)
    (hk : 1 ≤ k) (hstall : t - w.lastPhysicsUpdate ≥ (k : ℚ) * 0.5) :
    (tick ext w t).stepCount = w.stepCount + 1 ∧
    ∀ t' : ℚ, (tick ext w t').stepCount ≤ w.stepCount + 1 := by
  have hk1 : (1 : ℚ) ≤ (k : ℚ) := by exact_mod_cast hk
  have hgate : t - w.lastPhysicsUpdate ≥ 0.5 := by nlinarith
  constructor
  · rw [tick_stepCount, if_pos hgate]
  · intro t'
    rw [tick_stepCount]
    split <;> omega

/-- Witness for C3: a stall of 6 intervals (3 seconds) produces exactly one
step on the next frame. -/
theorem no_backfill_witness :
    (tick sampleExt sampleWorld 3).stepCount = sampleWorld.stepCount + 1 ∧
    (tick sampleExt sampleWorld 100).stepCount ≤ sampleWorld.stepCount + 1 :=
  ⟨(no_backfill sampleExt sampleWorld 3 6 (by norm_num)
      (by norm_num [sampleWorld])).1,
   (no_backfill sampleExt sampleWorld 3 6 (by norm_num)
      (by norm_num [sampleWorld])).2 100⟩

/-- C4: with `trailEveryNFrames = 5` and the frame counter starting at 0,
across 12 frame ticks trail points are recorded on exactly 2 frames — when
the counter reaches 5 and 10 (sample count is 0 through frame 4, 1 from
frame 5 through frame 9, 2 from frame 10) — and any frame whose incremented
counter misses the cadence leaves both trail buffers untouched. -/
theorem trail_cadence (ext : Ext) (w : World)
    (hc : w.trailUpdateCount = 0) (hs : w.trailSampleCount = 0)
    (ts : List ℚ) (hlen : ts.length = 12) :
    (runTicks ext w ts).trailSampleCount = 2 ∧
    (runTicks ext w (ts.take 4)).trailSampleCount = 0 ∧
    (runTicks ext w (ts.take 5)).trailSampleCount = 1 ∧
    (runTicks ext w (ts.take 9)).trailSampleCount = 1 ∧
    (runTicks ext w (ts.take 10)).trailSampleCount = 2 ∧
    ∀ (w' : World) (t' : ℚ), (w'.trailUpdateCount + 1) % 5 ≠ 0 →
      (tick ext w' t').marsTrailPositions = w'.marsTrailPositions ∧
      (tick ext w' t').earthTrailPositions = w'.earthTrailPositions := by
  refine ⟨?_, ?_, ?_, ?_, ?_, ?_⟩
  · rw [runTicks_trailSampleCount, hc, hs, hlen]; rfl
  · rw [runTicks_trailSampleCount, hc, hs, List.length_take, hlen]; rfl
  · rw [runTicks_trailSampleCount, hc, hs, List.length_take, hlen]; rfl
  · rw [runTicks_trailSampleCount, hc, hs, List.length_take, hlen]; rfl
  · rw [runTicks_trailSampleCount, hc, hs, List.length_take, hlen]; rfl
  · intro w' t' h
    by_cases hg : t' - w'.lastPhysicsUpdate ≥ 0.5 <;>
      constructor <;> simp [tick, h, hg]

/-- Witness for C4 on the concrete sample world, over 12 equally spaced
frame times. -/
theorem trail_cadence_witness :
    (runTicks sampleExt sampleWorld
      [0, 1, 2, 3, 4, 5, 6, 7, 8, 9, 10, 11]).trailSampleCount = 2 :=
  (trail_cadence sampleExt sampleWorld rfl rfl
    [0, 1, 2, 3, 4, 5, 6, 7, 8, 9, 10, 11] rfl).1

/-- C5: the physics-to-scene unit conversion is linear: it commutes with
vector addition and with scalar multiplication. -/
theorem toScene_linear (a b : Vec2) (k : ℚ) :
    toScene (a.add b) = (toScene a).add (toScene b) ∧
    toScene (Vec2.smul k a) = Vec2.smul k (toScene a) := by
  refine ⟨?_, ?_⟩ <;>
    simp only [toScene, Vec2.add, Vec2.smul, Vec2.mk.injEq] <;>
    constructor <;> ring

/-- C9: a body whose physics position is `(2.28e11, 0)` is placed by the
per-frame conversion at scene position `(2.28, 0, 0)`, with z exactly 0
(stated on a frame without a physics step, so the converted position is
that of the given physics state). -/
theorem unit_mapping (ext : Ext) (w : World) (t : ℚ)
    (hpos : w.bodies.mars.position = ⟨2.28e11, 0⟩)
    (hgate : ¬ t - w.lastPhysicsUpdate ≥ 0.5) :
    (tick ext w t).marsMesh.position = ⟨2.28, 0, 0⟩ := by
  simp only [tick, if_neg hgate, hpos]
  norm_num [SCALE_FACTOR]

/-- Witness for C9 at the source's own initial Mars state. -/
theorem unit_mapping_witness :
    (tick sampleExt sampleWorld 0).marsMesh.position = ⟨2.28, 0, 0⟩ :=
  unit_mapping sampleExt sampleWorld 0 rfl (by norm_num [sampleWorld])

/-- C7: on a frame where the physics gate fires, the positions written to the
scene nodes that frame are the unit conversions of the post-step physics
positions of all three bodies (the stepper runs before the scene update). -/
theorem step_before_draw (ext : Ext) (w : World) (t : ℚ)
    (hstep : t - w.lastPhysicsUpdate ≥ 0.5) :
    (tick ext w t).marsMesh.position =
      ⟨(toScene (ext.step w.bodies).mars.position).x,
       (toScene (ext.step w.bodies).mars.position).y, 0⟩ ∧
    (tick ext w t).earthMesh.position =
      ⟨(toScene (ext.step w.bodies).earth.position).x,
       (toScene (ext.step w.bodies).earth.position).y, 0⟩ ∧
    (tick ext w t).sunMesh.position =
      ⟨(toScene (ext.step w.bodies).sun.position).x,
       (toScene (ext.step w.bodies).sun.position).y, 0⟩ := by
  refine ⟨?_, ?_, ?_⟩ <;> simp [tick, hstep, toScene]

/-- Witness for C7 with the identity stepper at frame time 1. -/
theorem step_before_draw_witness :
    (tick sampleExt sampleWorld 1).marsMesh.position =
      ⟨(toScene (sampleExt.step sampleWorld.bodies).mars.position).x,
       (toScene (sampleExt.step sampleWorld.bodies).mars.position).y, 0⟩ ∧
    (tick sampleExt sampleWorld 1).earthMesh.position =
      ⟨(toScene (sampleExt.step sampleWorld.bodies).earth.position).x,
       (toScene (sampleExt.step sampleWorld.bodies).earth.position).y, 0⟩ ∧
    (tick sampleExt sampleWorld 1).sunMesh.position =
      ⟨(toScene (sampleExt.step sampleWorld.bodies).sun.position).x,
       (toScene (sampleExt.step sampleWorld.bodies).sun.position).y, 0⟩ :=
  step_before_draw sampleExt sampleWorld 1 (by norm_num [sampleWorld])

/-- C8: on a physics-step frame, absent optional text-output targets are
skipped silently (`tick` is a total function, so nothing can throw): an
absent target stays absent, while the scene-node updates, the trail buffers
and the render invocation are exactly those of the same frame before the
targets were replaced. -/
theorem optional_targets (ext : Ext) (w : World) (t : ℚ)
    (d v s : Option TextElement) (hstep : t - w.lastPhysicsUpdate ≥ 0.5) :
    let w0 : World :=
      { w with distanceElement := d, velocityElement := v, simTimeElement := s }
    (d = none → (tick ext w0 t).distanceElement = none) ∧
    (v = none → (tick ext w0 t).velocityElement = none) ∧
    (s = none → (tick ext w0 t).simTimeElement = none) ∧
    (tick ext w0 t).marsMesh = (tick ext w t).marsMesh ∧
    (tick ext w0 t).earthMesh = (tick ext w t).earthMesh ∧
    (tick ext w0 t).sunMesh = (tick ext w t).sunMesh ∧
    (tick ext w0 t).marsTrailPositions = (tick ext w t).marsTrailPositions ∧
    (tick ext w0 t).earthTrailPositions = (tick ext w t).earthTrailPositions ∧
    (tick ext w0 t).renderCount = w.renderCount + 1 ∧
    (tick ext w0 t).stepCount = w.stepCount + 1 := by
  intro w0
  refine ⟨?_, ?_, ?_, ?_, ?_, ?_, ?_, ?_, ?_, ?_⟩
  · intro h; simp [tick, hstep, w0, h]
  · intro h; simp [tick, hstep, w0, h]
  · intro h; simp [tick, hstep, w0, h]
  · simp [tick, hstep, w0]
  · simp [tick, hstep, w0]
  · simp [tick, hstep, w0]
  · simp [tick, hstep, w0]
  · simp [tick, hstep, w0]
  · simp [tick, hstep, w0]
  · simp [tick, hstep, w0]

/-- Witness for C8: all three targets absent on a physics-step frame; the
distance target stays absent and the render still runs. -/
theorem optional_targets_witness :
    (tick sampleExt sampleWorldAbsent 1).distanceElement = none ∧
    (tick sampleExt sampleWorldAbsent 1).renderCount =
      sampleWorld.renderCount + 1 :=
  have h := optional_targets sampleExt sampleWorld 1 none none none
    (by norm_num [sampleWorld])
  ⟨h.1 rfl, h.2.2.2.2.2.2.2.2.1⟩

/-- On a frame where the cadence fires, each planet's trail buffer after the
frame is one `record` of exactly the scene position written to that planet's
scene node the same frame. -/
theorem tick_trails_fire (ext : Ext) (w : World) (t : ℚ)
    (hfire : (w.trailUpdateCount + 1) % 5 = 0) :
    (tick ext w t).marsTrailPositions =
      (recordTrail MAX_TRAIL_POINTS w.marsTrailPositions w.marsTrailIndex
        (tick ext w t).marsMesh.position.x
        (tick ext w t).marsMesh.position.y).1 ∧
    (tick ext w t).earthTrailPositions =
      (recordTrail MAX_TRAIL_POINTS w.earthTrailPositions w.earthTrailIndex
        (tick ext w t).earthMesh.position.x
        (tick ext w t).earthMesh.position.y).1 := by
  by_cases hg : t - w.lastPhysicsUpdate ≥ 0.5 <;>
    constructor <;> simp [tick, hfire, hg]

/-- C10: on a frame where trail sampling fires, the slot written into each
planet's trail buffer holds exactly the scene position written to that
planet's scene node the same frame, with a recorded z of exactly 0. -/
theorem trail_mesh_coherent (ext : Ext) (w : World) (t : ℚ)
    (hfire : (w.trailUpdateCount + 1) % 5 = 0)
    (hmi : w.marsTrailIndex < MAX_TRAIL_POINTS)
    (hml : w.marsTrailPositions.length = 3 * MAX_TRAIL_POINTS)
    (hei : w.earthTrailIndex < MAX_TRAIL_POINTS)
    (hel : w.earthTrailPositions.length = 3 * MAX_TRAIL_POINTS) :
    (tick ext w t).marsTrailPositions[w.marsTrailIndex * 3]? =
      some (tick ext w t).marsMesh.position.x ∧
    (tick ext w t).marsTrailPositions[w.marsTrailIndex * 3 + 1]? =
      some (tick ext w t).marsMesh.position.y ∧
    (tick ext w t).marsTrailPositions[w.marsTrailIndex * 3 + 2]? = some 0 ∧
    (tick ext w t).earthTrailPositions[w.earthTrailIndex * 3]? =
      some (tick ext w t).earthMesh.position.x ∧
    (tick ext w t).earthTrailPositions[w.earthTrailIndex * 3 + 1]? =
      some (tick ext w t).earthMesh.position.y ∧
    (tick ext w t).earthTrailPositions[w.earthTrailIndex * 3 + 2]? = some 0 := by
  obtain ⟨hmars, hearth⟩ := tick_trails_fire ext w t hfire
  refine ⟨?_, ?_, ?_, ?_, ?_, ?_⟩
  · rw [hmars]; exact (recordTrail_read _ _ _ _ _ hmi hml).1
  · rw [hmars]; exact (recordTrail_read _ _ _ _ _ hmi hml).2.1
  · rw [hmars]; exact (recordTrail_read _ _ _ _ _ hmi hml).2.2
  · rw [hearth]; exact (recordTrail_read _ _ _ _ _ hei hel).1
  · rw [hearth]; exact (recordTrail_read _ _ _ _ _ hei hel).2.1
  · rw [hearth]; exact (recordTrail_read _ _ _ _ _ hei hel).2.2

/-- Witness for C10 on the sample world with the counter one frame before
the cadence fires. -/
theorem trail_mesh_coherent_witness :
    (tick sampleExt { sampleWorld with trailUpdateCount := 4 }
        1).marsTrailPositions[
          ({ sampleWorld with trailUpdateCount := 4 } : World).marsTrailIndex
            * 3]? =
      some (tick sampleExt { sampleWorld with trailUpdateCount := 4 }
        1).marsMesh.position.x :=
  (trail_mesh_coherent sampleExt { sampleWorld with trailUpdateCount := 4 } 1
    (by norm_num [sampleWorld]) (by norm_num [sampleWorld, MAX_TRAIL_POINTS])
    (by simp [sampleWorld, initTrailPositions])
    (by norm_num [sampleWorld, MAX_TRAIL_POINTS])
    (by simp [sampleWorld, initTrailPositions])).1

end Orbits
